import Mathlib

/-!
Shallow embedding of `tap_bigcommerce/client.py` and proofs about it.

The file models:
  * the `validate` decorator (replication-key / bookmark checks on keyword
    arguments),
  * the `parse_date_string_arguments('bookmark')` decorator (string → datetime
    coercion of the `bookmark` keyword argument; it runs *before* `validate`
    because it is the outermost decorator),
  * `BigCommerce.iterdates` (day-window chunking; datetimes are modelled as
    integer POSIX timestamps in seconds, one day = 86400 seconds; Python's
    `timedelta.days` is floor division of the span by one day),
  * the bodies of `orders`, `products`, `products_attribute` and `customers`
    (query construction, record reshaping, option de-duplication), with the
    underlying `api.resource` fetch modelled as an abstract function and the
    fetches actually issued recorded in a trace,
  * `BigCommerce.__init__` / `_reset_session` and `Client.is_authorized`.

`dateutil.parser.parse` is an external library collaborator; it is modelled
as an abstract total function `p : String → Int` supplied as a parameter
(the concrete strings considered in the theorems below are all parseable).
-/

namespace TapBigcommerce

/-- A Python value as far as the client layer inspects it: a string, a
`datetime` (an integer timestamp), an integer, or `None`. -/
inductive Value where
  | str (s : String)
  | dt (d : Int)
  | int (n : Int)
  | pyNone
  deriving DecidableEq, Repr

/-- `type(v) is str` -/
def Value.isStr : Value → Bool
  | .str _ => true
  | _ => false

/-- `type(v) is datetime` -/
def Value.isDt : Value → Bool
  | .dt _ => true
  | _ => false

/-- The exceptions the embedded code can raise. -/
inductive PyErr where
  | invalidReplicationKey
  | bookmarkNotDatetime
  | parseDateExpectsString
  | valueError
  | typeError
  | attributeError
  deriving DecidableEq, Repr

/-- How an argument was supplied at the call site: positionally (in `*args`)
or as a keyword argument (in `**kwargs`). -/
inductive Arg where
  | pos (v : Value)
  | kw (v : Value)
  deriving DecidableEq, Repr

/-- The value an argument binds to in the method body, however it was
supplied. -/
def Arg.value : Arg → Value
  | .pos v => v
  | .kw v => v

/-- A call to one of the resource methods, which all take
`(self, replication_key, bookmark)`. -/
structure Call where
  replication_key : Arg
  bookmark : Arg
  deriving DecidableEq, Repr

/-- `'replication_key' in kwargs and kwargs['replication_key'] not in
['date_modified', 'id']` -/
def kwInvalidRepKey (c : Call) : Bool :=
  match c.replication_key with
  | .kw v => !(v == .str "date_modified" || v == .str "id")
  | .pos _ => false

/-- `'bookmark' in kwargs and type(kwargs['bookmark']) is not datetime` -/
def kwBadBookmark (c : Call) : Bool :=
  match c.bookmark with
  | .kw v => !v.isDt
  | .pos _ => false

/-- The `validate` decorator's wrapper `_validate`: raises on an invalid
keyword `replication_key`, then on a non-datetime keyword `bookmark`,
otherwise passes the call through unchanged. -/
def validate (c : Call) : Except PyErr Call :=
  if kwInvalidRepKey c then .error .invalidReplicationKey
  else if kwBadBookmark c then .error .bookmarkNotDatetime
  else .ok c

/-- The `parse_date_string_arguments('bookmark')` decorator's wrapper
`parse_dt`: for the keyword argument named `bookmark` (the only key in
`fields`), raises if the value is not a string, otherwise replaces it with
`parse(value)`.  Positional arguments and other keywords are untouched.
`p` models `dateutil.parser.parse`. -/
def parse_dt (p : String → Int) (c : Call) : Except PyErr Call :=
  match c.bookmark with
  | .kw (.str s) => .ok { c with bookmark := .kw (.dt (p s)) }
  | .kw _ => .error .parseDateExpectsString
  | .pos _ => .ok c

/-- The composed decorator stack as applied to `orders`, `products`,
`products_attribute` and `customers`: `parse_dt` runs first (outermost
decorator), then `_validate`; only if both pass is the method body entered. -/
def decoratedCall (p : String → Int) (c : Call) : Except PyErr Call :=
  (parse_dt p c).bind validate

/-- A value inside a query dict: a literal string or `bookmark.isoformat()`
of the datetime with timestamp `d`. -/
inductive QVal where
  | str (s : String)
  | iso (d : Int)
  deriving DecidableEq, Repr

/-- A query dict passed to `api.resource`. -/
abbrev Query := List (String × QVal)

/-- `v.isoformat()`: defined on datetimes, an `AttributeError` otherwise. -/
def Value.isoformat : Value → Except PyErr QVal
  | .dt d => .ok (.iso d)
  | _ => .error .attributeError

/-- The query built by `orders`. -/
def ordersQuery (d : Int) : Query :=
  [("min_date_modified", .iso d), ("sort", .str "date_modified:asc")]

/-- The query built by `products` and `products_attribute`. -/
def productsQuery (d : Int) : Query :=
  [("date_modified:min", .iso d), ("sort", .str "date_modified"),
   ("direction", .str "asc")]

/-- The per-window query built by `customers`. -/
def customersQuery (s e : Int) : Query :=
  [("min_date_modified", .iso s), ("max_date_modified", .iso e)]

/-- An option value of a product option or variant (`{label, option_id}`). -/
structure OptionValue where
  label : String
  option_id : Int
  deriving DecidableEq, Repr

/-- An entry of a product's `options` list (`{id, display_name,
option_values}`). -/
structure ProductOption where
  id : Int
  display_name : String
  option_values : List OptionValue
  deriving DecidableEq, Repr

/-- An entry of a product's `variants` list. -/
structure Variant where
  sku : String
  price : Int
  option_values : List OptionValue
  deriving DecidableEq, Repr

/-- A product record returned by `api.resource('products', ...)`, with the
fields the client reads.  `variants`/`options` are `none` when the key is
absent from the dict. -/
structure Product where
  id : Int
  name : String
  sku : String
  date_created : String
  date_modified : String
  variants : Option (List Variant)
  options : Option (List ProductOption)
  deriving DecidableEq, Repr

/-- The record `products` yields for each fetched product. -/
structure ProductOut where
  id : Int
  name : String
  sku : String
  created_at : String
  updated_at : String
  date_created : String
  date_modified : String
  options : List (String × String)
  deriving DecidableEq, Repr

/-- The `option_convert` dict built inside the `variants` loop of
`products`. -/
structure OptionConvert where
  title : String
  option_type_id : Int
  deriving DecidableEq, Repr

/-- The `variant_convert` dict built inside the `variants` loop of
`products`. -/
structure VariantConvert where
  product_sku : String
  title : String
  price : Int
  values : List OptionConvert
  deriving DecidableEq, Repr

/-- The `variant_convert` values computed (and then discarded: the source
never attaches them to `data`) by the `variants` loop of `products`. -/
def variant_converts (product : Product) : List VariantConvert :=
  match product.variants with
  | none => []
  | some vs => vs.map (fun v =>
      { product_sku := v.sku, title := product.name, price := v.price,
        values := v.option_values.map (fun ov =>
          { title := ov.label, option_type_id := ov.option_id }) })

/-- The `data` dict yielded by `products` for one fetched product. -/
def products_transform (product : Product) : ProductOut :=
  { id := product.id, name := product.name, sku := product.sku,
    created_at := product.date_created, updated_at := product.date_modified,
    date_created := product.date_created,
    date_modified := product.date_modified, options := [] }

/-- The `data_option` dict built by `products_attribute` for one entry of a
product's `options` list. -/
structure AttrOut where
  id : Int
  attribute_id : Int
  default_frontend_label : String
  default_value : String
  source : String
  options : List (String × String)
  deriving DecidableEq, Repr

/-- One `data_option` record of `products_attribute`. -/
def data_option_of (o : ProductOption) : AttrOut :=
  { id := o.id, attribute_id := o.id, default_frontend_label := o.display_name,
    default_value := o.display_name, source := "bigcommerce",
    options := o.option_values.map (fun v => (v.label, v.label)) }

/-- Python's `max` over a list: raises `ValueError` on an empty sequence. -/
def pythonMax : List Nat → Except PyErr Nat
  | [] => .error .valueError
  | x :: xs => .ok (xs.foldl Nat.max x)

/-- How many entries of `l` carry the label `name` (the `Counter` of
`products_attribute`; a label is in `unique_names` iff its count is 1). -/
def labelCount (l : List AttrOut) (name : String) : Nat :=
  (l.filter (fun item => item.default_frontend_label == name)).length

/-- The body of `products_attribute` for one fetched product: `ok none` when
the product has no `options` key (nothing yielded), an error when `max` is
taken over an empty `data_convert`, and otherwise the filtered
`final_objects` batch. -/
def products_attribute_step (product : Product) :
    Except PyErr (Option (List AttrOut)) :=
  match product.options with
  | none => .ok none
  | some opts =>
    let data_convert := opts.map data_option_of
    match pythonMax (data_convert.map (fun item => item.options.length)) with
    | .error e => .error e
    | .ok max_option_count =>
      .ok (some (data_convert.filter (fun item =>
        labelCount data_convert item.default_frontend_label == 1
          || item.options.length == max_option_count)))

/-- Driving the `products_attribute` generator to completion over the fetched
products: batches in order, stopping at the first raised exception. -/
def collectBatches : List Product → Except PyErr (List (List AttrOut))
  | [] => .ok []
  | prod :: rest =>
    match products_attribute_step prod with
    | .error e => .error e
    | .ok none => collectBatches rest
    | .ok (some batch) =>
      match collectBatches rest with
      | .error e => .error e
      | .ok bs => .ok (batch :: bs)

/-- `BigCommerce.iterdates`: `utcnow` and `start_date` are timestamps in
seconds; `timedelta(n)` is `n` days of 86400 seconds and `(utcnow -
start_date).days` is floor division of the span by one day (`Int.fdiv`). -/
def iterdates (utcnow start_date : Int) : List (Int × Int) :=
  (List.range (max ((utcnow - start_date).fdiv 86400) 1).toNat).map
    (fun (n : Nat) => (start_date + 86400 * (n : Int),
                       min (start_date + 86400 * ((n : Int) + 1)) utcnow))

/-- A full call to `orders` through both decorators: the `api.resource`
fetches issued, and the yielded records (or the exception raised). -/
def runOrders {α : Type} (p : String → Int) (api : String → Query → List α)
    (c : Call) : List (String × Query) × Except PyErr (List α) :=
  match decoratedCall p c with
  | .error e => ([], .error e)
  | .ok c2 =>
    match c2.bookmark.value with
    | .dt d => ([("orders", ordersQuery d)], .ok (api "orders" (ordersQuery d)))
    | _ => ([], .error .attributeError)

/-- A full call to `products` through both decorators. -/
def runProducts (p : String → Int) (api : String → Query → List Product)
    (c : Call) : List (String × Query) × Except PyErr (List ProductOut) :=
  match decoratedCall p c with
  | .error e => ([], .error e)
  | .ok c2 =>
    match c2.bookmark.value with
    | .dt d =>
      ([("products", productsQuery d)],
       .ok ((api "products" (productsQuery d)).map products_transform))
    | _ => ([], .error .attributeError)

/-- A full call to `products_attribute` through both decorators. -/
def runProductsAttribute (p : String → Int)
    (api : String → Query → List Product) (c : Call) :
    List (String × Query) × Except PyErr (List (List AttrOut)) :=
  match decoratedCall p c with
  | .error e => ([], .error e)
  | .ok c2 =>
    match c2.bookmark.value with
    | .dt d =>
      ([("products", productsQuery d)],
       collectBatches (api "products" (productsQuery d)))
    | _ => ([], .error .attributeError)

/-- A full call to `customers` through both decorators: one fetch per
`iterdates` window, records concatenated in window order. -/
def runCustomers {α : Type} (utcnow : Int) (p : String → Int)
    (api : String → Query → List α) (c : Call) :
    List (String × Query) × Except PyErr (List α) :=
  match decoratedCall p c with
  | .error e => ([], .error e)
  | .ok c2 =>
    match c2.bookmark.value with
    | .dt b =>
      let ws := iterdates utcnow b
      (ws.map (fun w => ("customers", customersQuery w.1 w.2)),
       .ok (ws.flatMap (fun w => api "customers" (customersQuery w.1 w.2))))
    | _ => ([], .error .typeError)

/-- The mutable client state: `Client.authorized` and the `api` attribute. -/
structure ClientState (Api : Type) where
  authorized : Bool
  api : Option Api

/-- `Client.is_authorized`: `self.authorized is True`. -/
def is_authorized {Api : Type} (s : ClientState Api) : Bool :=
  s.authorized == true

/-- `BigCommerce.__init__` / `_reset_session`: `mk` is the outcome of the
`Bigcommerce(...)` session constructor.  On success `authorized` is set to
`True`; on failure `authorized` is set to `False` and the same exception is
re-raised.  Returns the propagated outcome together with the state left
behind. -/
def bigcommerce_init (Api Err : Type) (mk : Except Err Api) :
    Except Err Unit × ClientState Api :=
  match mk with
  | .ok a => (.ok (), { authorized := true, api := some a })
  | .error e => (.error e, { authorized := false, api := none })

/-! ### Helper lemmas -/

/-- An invalid keyword `replication_key` makes the decorator stack raise,
whatever the bookmark argument is. -/
theorem decoratedCall_error_of_invalid_rk (p : String → Int) (c : Call)
    (v : Value) (hrk : c.replication_key = Arg.kw v)
    (hdm : v ≠ Value.str "date_modified") (hid : v ≠ Value.str "id") :
    ∃ e, decoratedCall p c = Except.error e := by
  have hbool : kwInvalidRepKey c = true := by
    simp [kwInvalidRepKey, hrk]
    exact ⟨hdm, hid⟩
  cases hb : c.bookmark with
  | pos w =>
    refine ⟨PyErr.invalidReplicationKey, ?_⟩
    simp [decoratedCall, parse_dt, hb, Except.bind, validate, hbool]
  | kw w =>
    cases w with
    | str s =>
      refine ⟨PyErr.invalidReplicationKey, ?_⟩
      have hbool2 : kwInvalidRepKey { c with bookmark := Arg.kw (Value.dt (p s)) } = true := by
        simpa [kwInvalidRepKey, hrk] using hbool
      simp [decoratedCall, parse_dt, hb, Except.bind, validate, hbool2]
    | dt d =>
      exact ⟨PyErr.parseDateExpectsString, by
        simp [decoratedCall, parse_dt, hb, Except.bind]⟩
    | int n =>
      exact ⟨PyErr.parseDateExpectsString, by
        simp [decoratedCall, parse_dt, hb, Except.bind]⟩
    | pyNone =>
      exact ⟨PyErr.parseDateExpectsString, by
        simp [decoratedCall, parse_dt, hb, Except.bind]⟩

/-- A raising decorator stack means `runOrders` issues no fetch and raises. -/
theorem runOrders_of_error {α : Type} (p : String → Int)
    (api : String → Query → List α) (c : Call) (e : PyErr)
    (h : decoratedCall p c = Except.error e) :
    runOrders p api c = ([], Except.error e) := by
  simp [runOrders, h]

/-- A raising decorator stack means `runProducts` issues no fetch and
raises. -/
theorem runProducts_of_error (p : String → Int)
    (api : String → Query → List Product) (c : Call) (e : PyErr)
    (h : decoratedCall p c = Except.error e) :
    runProducts p api c = ([], Except.error e) := by
  simp [runProducts, h]

/-- A raising decorator stack means `runProductsAttribute` issues no fetch
and raises. -/
theorem runProductsAttribute_of_error (p : String → Int)
    (api : String → Query → List Product) (c : Call) (e : PyErr)
    (h : decoratedCall p c = Except.error e) :
    runProductsAttribute p api c = ([], Except.error e) := by
  simp [runProductsAttribute, h]

/-- A raising decorator stack means `runCustomers` issues no fetch and
raises. -/
theorem runCustomers_of_error {α : Type} (utcnow : Int) (p : String → Int)
    (api : String → Query → List α) (c : Call) (e : PyErr)
    (h : decoratedCall p c = Except.error e) :
    runCustomers utcnow p api c = ([], Except.error e) := by
  simp [runCustomers, h]

/-! ### Claim theorems -/

/-- C1: for every call to a resource method (`orders`, `products`,
`products_attribute`, `customers`) whose keyword `replication_key` is
anything other than `date_modified` or `id`, the call raises an exception
and no `api.resource` fetch is issued. -/
theorem c1_invalid_replication_key_raises_before_fetch {α β : Type}
    (p : String → Int) (apiO : String → Query → List α)
    (apiP apiA : String → Query → List Product)
    (apiC : String → Query → List β) (utcnow : Int) (c : Call) (v : Value)
    (hrk : c.replication_key = Arg.kw v)
    (hdm : v ≠ Value.str "date_modified") (hid : v ≠ Value.str "id") :
    ((runOrders p apiO c).1 = [] ∧
      ∃ e, (runOrders p apiO c).2 = Except.error e) ∧
    ((runProducts p apiP c).1 = [] ∧
      ∃ e, (runProducts p apiP c).2 = Except.error e) ∧
    ((runProductsAttribute p apiA c).1 = [] ∧
      ∃ e, (runProductsAttribute p apiA c).2 = Except.error e) ∧
    ((runCustomers utcnow p apiC c).1 = [] ∧
      ∃ e, (runCustomers utcnow p apiC c).2 = Except.error e) := by
  obtain ⟨e, he⟩ := decoratedCall_error_of_invalid_rk p c v hrk hdm hid
  refine ⟨?_, ?_, ?_, ?_⟩
  · rw [runOrders_of_error p apiO c e he]
    exact ⟨rfl, e, rfl⟩
  · rw [runProducts_of_error p apiP c e he]
    exact ⟨rfl, e, rfl⟩
  · rw [runProductsAttribute_of_error p apiA c e he]
    exact ⟨rfl, e, rfl⟩
  · rw [runCustomers_of_error utcnow p apiC c e he]
    exact ⟨rfl, e, rfl⟩

/-- Witness for C1 at a concrete input: `replication_key='foo'` (keyword),
`bookmark` a datetime. -/
theorem c1_invalid_replication_key_raises_before_fetch_witness :
    ({ replication_key := Arg.kw (Value.str "foo"),
       bookmark := Arg.kw (Value.dt 0) } : Call).replication_key
        = Arg.kw (Value.str "foo") ∧
    Value.str "foo" ≠ Value.str "date_modified" ∧
    Value.str "foo" ≠ Value.str "id" ∧
    (((runOrders (fun _ => 0) (fun _ _ => ([] : List Nat))
        { replication_key := Arg.kw (Value.str "foo"),
          bookmark := Arg.kw (Value.dt 0) }).1 = [] ∧
      ∃ e, (runOrders (fun _ => 0) (fun _ _ => ([] : List Nat))
        { replication_key := Arg.kw (Value.str "foo"),
          bookmark := Arg.kw (Value.dt 0) }).2 = Except.error e) ∧
    ((runProducts (fun _ => 0) (fun _ _ => [])
        { replication_key := Arg.kw (Value.str "foo"),
          bookmark := Arg.kw (Value.dt 0) }).1 = [] ∧
      ∃ e, (runProducts (fun _ => 0) (fun _ _ => [])
        { replication_key := Arg.kw (Value.str "foo"),
          bookmark := Arg.kw (Value.dt 0) }).2 = Except.error e) ∧
    ((runProductsAttribute (fun _ => 0) (fun _ _ => [])
        { replication_key := Arg.kw (Value.str "foo"),
          bookmark := Arg.kw (Value.dt 0) }).1 = [] ∧
      ∃ e, (runProductsAttribute (fun _ => 0) (fun _ _ => [])
        { replication_key := Arg.kw (Value.str "foo"),
          bookmark := Arg.kw (Value.dt 0) }).2 = Except.error e) ∧
    ((runCustomers 86400 (fun _ => 0) (fun _ _ => ([] : List Nat))
        { replication_key := Arg.kw (Value.str "foo"),
          bookmark := Arg.kw (Value.dt 0) }).1 = [] ∧
      ∃ e, (runCustomers 86400 (fun _ => 0) (fun _ _ => ([] : List Nat))
        { replication_key := Arg.kw (Value.str "foo"),
          bookmark := Arg.kw (Value.dt 0) }).2 = Except.error e)) :=
  ⟨rfl, by decide, by decide,
   c1_invalid_replication_key_raises_before_fetch (fun _ => 0)
     (fun _ _ => ([] : List Nat)) (fun _ _ => []) (fun _ _ => [])
     (fun _ _ => ([] : List Nat)) 86400
     { replication_key := Arg.kw (Value.str "foo"),
       bookmark := Arg.kw (Value.dt 0) }
     (Value.str "foo") rfl (by decide) (by decide)⟩

/-- C2 counterexample: the bookmark `"2023-01-01T00:00:00Z"` is a string,
not a datetime instance, yet `orders` does not raise: the coercion decorator
converts it and the `api.resource` fetch is issued. -/
theorem c2_counterexample_string_bookmark_fetches :
    Value.isDt (Value.str "2023-01-01T00:00:00Z") = false ∧
    runOrders (fun _ => 0) (fun _ _ => ([] : List Nat))
      { replication_key := Arg.kw (Value.str "id"),
        bookmark := Arg.kw (Value.str "2023-01-01T00:00:00Z") }
      = ([("orders", ordersQuery 0)], Except.ok []) := by
  exact ⟨rfl, rfl⟩

/-- C2 (amended): for every keyword bookmark value that is neither a datetime
instance nor a string, `orders`, `products` and `customers` raise before the
underlying `api.resource` fetch is invoked. -/
theorem c2_amended_nonstring_nondatetime_bookmark_raises_before_fetch
    {α β : Type} (utcnow : Int) (p : String → Int)
    (apiO : String → Query → List α) (apiP : String → Query → List Product)
    (apiC : String → Query → List β) (c : Call) (v : Value)
    (hb : c.bookmark = Arg.kw v) (hs : v.isStr = false)
    (hd : v.isDt = false) :
    runOrders p apiO c = ([], Except.error PyErr.parseDateExpectsString) ∧
    runProducts p apiP c = ([], Except.error PyErr.parseDateExpectsString) ∧
    runCustomers utcnow p apiC c
      = ([], Except.error PyErr.parseDateExpectsString) := by
  have he : decoratedCall p c = Except.error PyErr.parseDateExpectsString := by
    cases v with
    | str s => simp [Value.isStr] at hs
    | dt d => simp [Value.isDt] at hd
    | int n => simp [decoratedCall, parse_dt, hb, Except.bind]
    | pyNone => simp [decoratedCall, parse_dt, hb, Except.bind]
  exact ⟨runOrders_of_error p apiO c _ he,
         runProducts_of_error p apiP c _ he,
         runCustomers_of_error utcnow p apiC c _ he⟩

/-- Witness for the amended C2 at a concrete input: `bookmark=1` (an
integer keyword argument). -/
theorem c2_amended_nonstring_nondatetime_bookmark_witness :
    ({ replication_key := Arg.kw (Value.str "id"),
       bookmark := Arg.kw (Value.int 1) } : Call).bookmark
        = Arg.kw (Value.int 1) ∧
    Value.isStr (Value.int 1) = false ∧
    Value.isDt (Value.int 1) = false ∧
    (runOrders (fun _ => 0) (fun _ _ => ([] : List Nat))
        { replication_key := Arg.kw (Value.str "id"),
          bookmark := Arg.kw (Value.int 1) }
      = ([], Except.error PyErr.parseDateExpectsString) ∧
     runProducts (fun _ => 0) (fun _ _ => [])
        { replication_key := Arg.kw (Value.str "id"),
          bookmark := Arg.kw (Value.int 1) }
      = ([], Except.error PyErr.parseDateExpectsString) ∧
     runCustomers 86400 (fun _ => 0) (fun _ _ => ([] : List Nat))
        { replication_key := Arg.kw (Value.str "id"),
          bookmark := Arg.kw (Value.int 1) }
      = ([], Except.error PyErr.parseDateExpectsString)) :=
  ⟨rfl, rfl, rfl,
   c2_amended_nonstring_nondatetime_bookmark_raises_before_fetch 86400
     (fun _ => 0) (fun _ _ => ([] : List Nat)) (fun _ _ => [])
     (fun _ _ => ([] : List Nat))
     { replication_key := Arg.kw (Value.str "id"),
       bookmark := Arg.kw (Value.int 1) }
     (Value.int 1) rfl rfl rfl⟩

/-- C3: the date-string coercion decorator converts a string keyword
`bookmark` into the datetime `parse(s)` before the wrapped method runs, and
raises whenever the keyword `bookmark` is a non-string value (a datetime
instance included). -/
theorem c3_bookmark_coercion (p : String → Int) (c : Call) :
    (∀ s : String, c.bookmark = Arg.kw (Value.str s) →
      parse_dt p c = Except.ok { c with bookmark := Arg.kw (Value.dt (p s)) }) ∧
    (∀ v : Value, c.bookmark = Arg.kw v → v.isStr = false →
      parse_dt p c = Except.error PyErr.parseDateExpectsString) := by
  constructor
  · intro s hb
    simp [parse_dt, hb]
  · intro v hb hs
    cases v with
    | str s => simp [Value.isStr] at hs
    | dt d => simp [parse_dt, hb]
    | int n => simp [parse_dt, hb]
    | pyNone => simp [parse_dt, hb]

/-- Witness for C3 at concrete inputs: a string bookmark is coerced, and a
datetime bookmark (a non-string) raises. -/
theorem c3_bookmark_coercion_witness :
    ({ replication_key := Arg.kw (Value.str "id"),
       bookmark := Arg.kw (Value.str "2023-01-01") } : Call).bookmark
        = Arg.kw (Value.str "2023-01-01") ∧
    parse_dt (fun _ => 7)
        { replication_key := Arg.kw (Value.str "id"),
          bookmark := Arg.kw (Value.str "2023-01-01") }
      = Except.ok { replication_key := Arg.kw (Value.str "id"),
                    bookmark := Arg.kw (Value.dt 7) } ∧
    Value.isDt (Value.dt 5) = true ∧
    parse_dt (fun _ => 7)
        { replication_key := Arg.kw (Value.str "id"),
          bookmark := Arg.kw (Value.dt 5) }
      = Except.error PyErr.parseDateExpectsString :=
  ⟨rfl,
   (c3_bookmark_coercion (fun _ => 7)
     { replication_key := Arg.kw (Value.str "id"),
       bookmark := Arg.kw (Value.str "2023-01-01") }).1 "2023-01-01" rfl,
   rfl,
   (c3_bookmark_coercion (fun _ => 7)
     { replication_key := Arg.kw (Value.str "id"),
       bookmark := Arg.kw (Value.dt 5) }).2 (Value.dt 5) rfl rfl⟩

/-- C10: both decorators inspect only keyword arguments.  When
`replication_key` and `bookmark` are supplied positionally, `parse_dt` and
`_validate` pass the call through unchanged (no coercion, no exception), for
arbitrary values of both arguments; with a positional datetime bookmark, an
invalid replication key reaches query construction and the fetch is
issued. -/
theorem c10_positional_arguments_skip_validation {α : Type}
    (p : String → Int) (api : String → Query → List α) (rk bm : Value)
    (d : Int) :
    parse_dt p { replication_key := Arg.pos rk, bookmark := Arg.pos bm }
      = Except.ok { replication_key := Arg.pos rk, bookmark := Arg.pos bm } ∧
    validate { replication_key := Arg.pos rk, bookmark := Arg.pos bm }
      = Except.ok { replication_key := Arg.pos rk, bookmark := Arg.pos bm } ∧
    decoratedCall p { replication_key := Arg.pos rk, bookmark := Arg.pos bm }
      = Except.ok { replication_key := Arg.pos rk, bookmark := Arg.pos bm } ∧
    runOrders p api { replication_key := Arg.pos rk,
                      bookmark := Arg.pos (Value.dt d) }
      = ([("orders", ordersQuery d)],
         Except.ok (api "orders" (ordersQuery d))) := by
  refine ⟨rfl, ?_, ?_, ?_⟩
  · simp [validate, kwInvalidRepKey, kwBadBookmark]
  · simp [decoratedCall, parse_dt, Except.bind, validate, kwInvalidRepKey,
      kwBadBookmark]
  · simp [runOrders, decoratedCall, parse_dt, Except.bind, validate,
      kwInvalidRepKey, kwBadBookmark, Arg.value]

/-- C5: when `start_date = utcnow - 2.5 days` (216000 seconds), `iterdates`
yields exactly 2 windows (the 2.5-day span truncating to 2 whole days), and
the last window's end (`utcnow - 43200`) does not exceed `utcnow`. -/
theorem c5_iterdates_two_and_a_half_days (u : Int) :
    iterdates u (u - 216000)
      = [(u - 216000, u - 129600), (u - 129600, u - 43200)] ∧
    (iterdates u (u - 216000)).length = 2 ∧
    u - 129600 ≤ u ∧ u - 43200 ≤ u := by
  have h216 : u - (u - 216000) = (216000 : Int) := by ring
  have hk : (max ((u - (u - 216000)).fdiv 86400) 1).toNat = 2 := by
    rw [h216]
    decide
  have hl : iterdates u (u - 216000)
      = [(u - 216000, u - 129600), (u - 129600, u - 43200)] := by
    simp only [iterdates, hk]
    have hr : List.range 2 = [0, 1] := rfl
    rw [hr]
    simp only [List.map, Prod.mk.injEq, List.cons.injEq, List.nil_eq]
    norm_num
    constructor <;> omega
  exact ⟨hl, by rw [hl]; rfl, by omega, by omega⟩

/-- C7: `products` reshapes every fetched record into the fixed-key dict
with `options` always the empty list; the output is unaffected by the
presence or absence of the `variants` key (the constructed
`variant_convert` data is never attached), and a record with no `variants`
key is transformed without raising. -/
theorem c7_products_output_shape (prod : Product) (p : String → Int)
    (s : String) (api : String → Query → List Product) :
    products_transform prod
      = { id := prod.id, name := prod.name, sku := prod.sku,
          created_at := prod.date_created, updated_at := prod.date_modified,
          date_created := prod.date_created,
          date_modified := prod.date_modified, options := [] } ∧
    (products_transform prod).options = [] ∧
    products_transform { prod with variants := none }
      = products_transform prod ∧
    runProducts p api { replication_key := Arg.kw (Value.str "date_modified"),
                        bookmark := Arg.kw (Value.str s) }
      = ([("products", productsQuery (p s))],
         Except.ok ((api "products" (productsQuery (p s))).map
           products_transform)) := by
  refine ⟨rfl, rfl, rfl, ?_⟩
  simp [runProducts, decoratedCall, parse_dt, Except.bind, validate,
    kwInvalidRepKey, kwBadBookmark, Arg.value, Value.isDt]

/-- C8: if the underlying session constructor raises, construction leaves
`authorized = False` and re-raises the very same error (no retry at this
layer); if it succeeds, `is_authorized()` returns `True`. -/
theorem c8_session_construction (Api Err : Type) :
    (∀ e : Err,
      (bigcommerce_init Api Err (Except.error e)).1 = Except.error e ∧
      (bigcommerce_init Api Err (Except.error e)).2.authorized = false ∧
      is_authorized (bigcommerce_init Api Err (Except.error e)).2 = false) ∧
    (∀ a : Api,
      is_authorized (bigcommerce_init Api Err (Except.ok a)).2 = true) :=
  ⟨fun _ => ⟨rfl, rfl, rfl⟩, fun _ => rfl⟩

/-- C9: a fetched product whose `options` key maps to the empty list makes
`products_attribute` raise (Python's `max` over the empty `data_convert`
sequence), rather than yielding an empty batch or skipping the product; the
error surfaces while iterating, after the fetch was issued. -/
theorem c9_empty_options_list_raises (prod : Product)
    (hopts : prod.options = some []) (p : String → Int) (s : String) :
    products_attribute_step prod = Except.error PyErr.valueError ∧
    runProductsAttribute p (fun _ _ => [prod])
        { replication_key := Arg.kw (Value.str "id"),
          bookmark := Arg.kw (Value.str s) }
      = ([("products", productsQuery (p s))],
         Except.error PyErr.valueError) := by
  have h1 : products_attribute_step prod = Except.error PyErr.valueError := by
    simp [products_attribute_step, hopts, pythonMax]
  refine ⟨h1, ?_⟩
  simp [runProductsAttribute, decoratedCall, parse_dt, Except.bind, validate,
    kwInvalidRepKey, kwBadBookmark, Arg.value, Value.isDt, collectBatches, h1]

/-- Witness for C9 at a concrete input: a product with `options: []`. -/
theorem c9_empty_options_list_raises_witness :
    ({ id := 1, name := "n", sku := "s", date_created := "c",
       date_modified := "m", variants := none,
       options := some [] } : Product).options = some [] ∧
    (products_attribute_step
        { id := 1, name := "n", sku := "s", date_created := "c",
          date_modified := "m", variants := none, options := some [] }
      = Except.error PyErr.valueError ∧
     runProductsAttribute (fun _ => 0)
        (fun _ _ => [{ id := 1, name := "n", sku := "s", date_created := "c",
                       date_modified := "m", variants := none,
                       options := some [] }])
        { replication_key := Arg.kw (Value.str "id"),
          bookmark := Arg.kw (Value.str "2023-01-01") }
      = ([("products", productsQuery 0)], Except.error PyErr.valueError)) :=
  ⟨rfl,
   (c9_empty_options_list_raises
      { id := 1, name := "n", sku := "s", date_created := "c",
        date_modified := "m", variants := none, options := some [] }
      rfl (fun _ => 0) "2023-01-01").1,
   (c9_empty_options_list_raises
      { id := 1, name := "n", sku := "s", date_created := "c",
        date_modified := "m", variants := none, options := some [] }
      rfl (fun _ => 0) "2023-01-01").2⟩

/-- C4 counterexample: with `utcnow = 216000` and `start_date = 0` (a span
of 2.5 days, so `start_date` is strictly earlier than now), the windows end
at `172800 < 216000`: the union does not cover the interval up to now — the
instant `200000` lies in no window. -/
theorem c4_counterexample_coverage_gap :
    iterdates 216000 0 = [(0, 86400), (86400, 172800)] ∧
    (0 : Int) < 216000 ∧
    ¬ ∃ w ∈ iterdates 216000 0, w.1 ≤ 200000 ∧ (200000 : Int) ≤ w.2 := by
  refine ⟨by decide, by decide, by decide⟩

/-- C4 (amended): for every `start_date` strictly earlier than `utcnow`,
`iterdates` yields `max(int((utcnow - start_date).days), 1)` consecutive
windows of whole-day width starting at `start_date`, each window's end
clamped to `utcnow`, with at least one window even when the span is under a
day; their union covers the interval from `start_date` up to the smaller of
`utcnow` and `start_date` plus the window count in days (rather than always
up to `utcnow`). -/
theorem c4_amended_iterdates_windows (u s : Int) (_h : s < u) :
    1 ≤ (iterdates u s).length ∧
    (iterdates u s).length = (max ((u - s).fdiv 86400) 1).toNat ∧
    (∀ i, (hi : i < (iterdates u s).length) →
      (iterdates u s).get ⟨i, hi⟩
        = (s + 86400 * (i : Int), min (s + 86400 * ((i : Int) + 1)) u)) ∧
    (∀ t : Int, s ≤ t →
      t ≤ min u (s + 86400 * ((iterdates u s).length : Int)) →
      ∃ w ∈ iterdates u s, w.1 ≤ t ∧ t ≤ w.2) := by
  have hlen : (iterdates u s).length = (max ((u - s).fdiv 86400) 1).toNat := by
    simp only [iterdates, List.length_map, List.length_range]
  have hget : ∀ i, (hi : i < (iterdates u s).length) →
      (iterdates u s).get ⟨i, hi⟩
        = (s + 86400 * (i : Int), min (s + 86400 * ((i : Int) + 1)) u) := by
    intro i hi
    simp only [iterdates, List.get_eq_getElem, List.getElem_map,
      List.getElem_range]
  have hk1 : 1 ≤ (iterdates u s).length := by
    rw [hlen]
    have h1 : (1 : Int) ≤ max ((u - s).fdiv 86400) 1 := le_max_right _ _
    omega
  refine ⟨hk1, hlen, hget, ?_⟩
  intro t hts htu
  set k := (iterdates u s).length with hkdef
  set q : Int := (t - s) / 86400 with hq
  have hqd : 86400 * q + (t - s) % 86400 = t - s := Int.ediv_add_emod _ _
  have hqr0 : 0 ≤ (t - s) % 86400 :=
    Int.emod_nonneg _ (show (86400 : Int) ≠ 0 by norm_num)
  have hqr1 : (t - s) % 86400 < 86400 :=
    Int.emod_lt_of_pos _ (show (0 : Int) < 86400 by norm_num)
  set i : Nat := min q.toNat (k - 1) with hidef
  have hik : i < k := by omega
  have hw := hget i hik
  have hmem : (iterdates u s).get ⟨i, hik⟩ ∈ iterdates u s :=
    List.get_mem _ i hik
  refine ⟨(iterdates u s).get ⟨i, hik⟩, hmem, ?_⟩
  rw [hw]
  dsimp only
  omega

/-- Witness for the amended C4 at a concrete input: `utcnow = 216000`,
`start_date = 0`. -/
theorem c4_amended_iterdates_windows_witness :
    (0 : Int) < 216000 ∧
    (1 ≤ (iterdates 216000 0).length ∧
     (iterdates 216000 0).length
        = (max (((216000 : Int) - 0).fdiv 86400) 1).toNat ∧
     (∀ i, (hi : i < (iterdates 216000 0).length) →
       (iterdates 216000 0).get ⟨i, hi⟩
         = ((0 : Int) + 86400 * (i : Int),
            min ((0 : Int) + 86400 * ((i : Int) + 1)) 216000)) ∧
     (∀ t : Int, (0 : Int) ≤ t →
       t ≤ min 216000 ((0 : Int) + 86400 * ((iterdates 216000 0).length : Int)) →
       ∃ w ∈ iterdates 216000 0, w.1 ≤ t ∧ t ≤ w.2)) :=
  ⟨by decide, c4_amended_iterdates_windows 216000 0 (by decide)⟩

/-- C6: for a product whose options are
`[{Color, [v1, v2]}, {Color, [v3]}, {Size, [v4]}]`, `products_attribute`
yields a single batch keeping the `Size` entry (its label is unique among
the product's options) and the first `Color` entry (its option-value count
2 equals the maximum observed), and dropping the second `Color` entry. -/
theorem c6_products_attribute_dedup (pid i1 i2 i3 : Int)
    (pname psku dc dm : String) (v1 v2 v3 v4 : OptionValue)
    (p : String → Int) (s : String) :
    products_attribute_step
        { id := pid, name := pname, sku := psku, date_created := dc,
          date_modified := dm, variants := none,
          options := some
            [{ id := i1, display_name := "Color", option_values := [v1, v2] },
             { id := i2, display_name := "Color", option_values := [v3] },
             { id := i3, display_name := "Size", option_values := [v4] }] }
      = Except.ok (some
          [data_option_of
             { id := i1, display_name := "Color", option_values := [v1, v2] },
           data_option_of
             { id := i3, display_name := "Size", option_values := [v4] }]) ∧
    runProductsAttribute p
        (fun _ _ =>
          [{ id := pid, name := pname, sku := psku, date_created := dc,
             date_modified := dm, variants := none,
             options := some
               [{ id := i1, display_name := "Color",
                  option_values := [v1, v2] },
                { id := i2, display_name := "Color", option_values := [v3] },
                { id := i3, display_name := "Size",
                  option_values := [v4] }] }])
        { replication_key := Arg.kw (Value.str "id"),
          bookmark := Arg.kw (Value.str s) }
      = ([("products", productsQuery (p s))],
         Except.ok
           [[data_option_of
               { id := i1, display_name := "Color",
                 option_values := [v1, v2] },
             data_option_of
               { id := i3, display_name := "Size",
                 option_values := [v4] }]]) := by
  constructor
  · rfl
  · rfl

end TapBigcommerce
